import Mathlib

/-!
# Verification of the food-delivery order lifecycle and rider matching

Shallow embedding of the order-lifecycle and rider-dispatch routes of the
food-delivery backend (`src/backend/src/routes/orders.js` and
`src/backend/src/routes/riders.js`).

Modelling conventions:
* JavaScript numbers are modelled as exact rationals (`ℚ`); the constants
  `0.02` and `0.05` are the exact rationals `2/100` and `5/100`, and
  `Math.round` is Mathlib's `round` (`round q = ⌊q + 1/2⌋`, i.e. round half
  toward +infinity, which is what JS does).  Trigonometric code (the
  haversine distance) is modelled over `ℝ`.
* Timestamps are rationals measured in minutes, passed explicitly as a
  `now` argument wherever the code calls `new Date()` or relies on a
  database `now()` default.  The source keeps dates in milliseconds and
  divides by `1000 * 60` at each place it needs minutes; with the model
  clock in minutes those conversions are the identity, and no other use of
  a timestamp depends on the unit.
* Nullable database columns become `Option` fields.  The JS truthiness
  idiom `x || d` on a nullable number is modelled by `jsOrQ`: it yields the
  default both when the value is absent and when it equals `0`, exactly as
  the JS `||` operator does; likewise `jsFalsyQ` models the `!x` test.
* The Prisma store is a record of lists; `findUnique` becomes `List.find?`
  on the key, `update where {id}` becomes a map that replaces the matching
  row, `create` appends.  Route-level role middleware
  (`authorizeRoles('...')`) is modelled as a leading role check.
* HTTP error responses are mapped to the specification's error taxonomy
  (`NotFound` for 404 lookups, `Forbidden` for 403, `InvalidState` for 400
  business-rule rejections, and `Conflict` for the "already been accepted
  by another rider" 400 of the rider-claim race).
* The request-validation layer is outside the modelled core: the target
  status of a status update arrives as a member of the closed `Status`
  enum (the route's `validStatuses.includes` check), and request items
  carry a `Nat` quantity.
-/

namespace FoodDelivery

/-- User roles, from the `user_role` SQL enum. -/
inductive Role where
  | customer
  | restaurant
  | rider
  | admin
deriving DecidableEq

/-- Order statuses, from the `order_status` SQL enum and the route's
`validStatuses` list. -/
inductive Status where
  | pending
  | confirmed
  | preparing
  | ready
  | picked_up
  | delivered
  | cancelled
deriving DecidableEq

/-- The string label of a status, used for default tracking messages. -/
def statusText : Status → String
  | .pending => "pending"
  | .confirmed => "confirmed"
  | .preparing => "preparing"
  | .ready => "ready"
  | .picked_up => "picked_up"
  | .delivered => "delivered"
  | .cancelled => "cancelled"

/-- An authenticated caller (`req.user`). -/
structure User where
  id : Nat
  name : String
  role : Role
deriving DecidableEq

/-- A persisted order line item (`OrderItem` rows created with the order). -/
structure OrderItem where
  menuItemId : Nat
  quantity : Nat
  price : ℚ
  notes : Option String := none
deriving DecidableEq

/-- Restaurant row, restricted to the fields the modelled routes read.
`deliveryTimeMax` stands for `parseInt(restaurant.deliveryTime.split('-')[1])`:
the parsed upper bound of the delivery-time string, `none` when unparseable. -/
structure Restaurant where
  id : Nat
  userId : Nat
  isActive : Bool
  isOpen : Bool
  deliveryFee : Option ℚ
  minimumOrder : ℚ
  deliveryTimeMax : Option Nat
  latitude : Option ℚ
  longitude : Option ℚ
deriving DecidableEq

/-- Rider profile row.  `id` is the profile's own primary key; `userId` is
the owning user's id — two distinct identifiers, as in the Prisma model
(`prisma.rider.findUnique({ where: { userId } })` versus `rider.id`). -/
structure Rider where
  id : Nat
  userId : Nat
  name : String
  isAvailable : Bool
deriving DecidableEq

/-- Delivery address row (only the ownership fields are modelled). -/
structure Address where
  id : Nat
  userId : Nat
deriving DecidableEq

/-- Menu item row (fields read by order creation). -/
structure MenuItem where
  id : Nat
  restaurantId : Nat
  price : ℚ
  isAvailable : Bool
deriving DecidableEq

/-- Order row, with the monetary breakdown and lifecycle timestamps. -/
structure Order where
  id : Nat
  orderNumber : Nat
  customerId : Nat
  restaurantId : Nat
  addressId : Nat
  riderId : Option Nat := none
  status : Status := .pending
  items : List OrderItem
  subtotal : ℚ
  deliveryFee : ℚ
  platformFee : ℚ
  taxes : ℚ
  total : ℚ
  specialInstructions : Option String := none
  estimatedTime : Nat
  actualTime : Option ℤ := none
  createdAt : ℚ
  confirmedAt : Option ℚ := none
  preparingAt : Option ℚ := none
  readyAt : Option ℚ := none
  pickedUpAt : Option ℚ := none
  deliveredAt : Option ℚ := none
  cancelledAt : Option ℚ := none
  cancellationReason : Option String := none
deriving DecidableEq

/-- One `OrderTracking` row: the append-only tracking log. -/
structure TrackingEntry where
  orderId : Nat
  status : Status
  message : String
  timestamp : ℚ
deriving DecidableEq

/-- The persistent store visible to the modelled routes. -/
structure DB where
  restaurants : List Restaurant
  riders : List Rider
  addresses : List Address
  menuItems : List MenuItem
  orders : List Order
  tracking : List TrackingEntry
deriving DecidableEq

/-- The specification's error taxonomy (§7). -/
inductive ErrKind where
  | NotFound
  | Forbidden
  | InvalidState
  | Conflict
deriving DecidableEq

deriving instance DecidableEq for Except

/-- JS `x || d` on a nullable number: the default replaces both `null` and
`0` (both are falsy). -/
def jsOrQ (v : Option ℚ) (d : ℚ) : ℚ :=
  match v with
  | none => d
  | some x => if x = 0 then d else x

/-- JS `x || d` on a nullable natural number (used for `estimatedTime`). -/
def jsOrNat (v : Option Nat) (d : Nat) : Nat :=
  match v with
  | none => d
  | some x => if x = 0 then d else x

/-- JS `s || d` on a nullable string: `null` and `""` are falsy. -/
def jsOrStr (v : Option String) (d : String) : String :=
  match v with
  | none => d
  | some s => if s = "" then d else s

/-- JS truthiness test `!x` on a nullable number: true for `null` and `0`. -/
def jsFalsyQ (v : Option ℚ) : Bool :=
  match v with
  | none => true
  | some x => x == 0

/-- JS `Math.round`: round half toward +infinity, i.e. `⌊q + 1/2⌋`, which
is Mathlib's `round`. -/
def jsRound (q : ℚ) : ℤ := round q

/-- The monetary breakdown produced at order creation. -/
structure Totals where
  subtotal : ℚ
  deliveryFee : ℚ
  platformFee : ℚ
  taxes : ℚ
  total : ℚ
deriving DecidableEq

/-- Model of `calculateOrderTotals` (orders.js lines 17–25): subtotal by reduce,
delivery fee `restaurant.deliveryFee || 40`, platform fee
`Math.round(subtotal * 0.02)`, taxes `Math.round(subtotal * 0.05)`,
total as the sum of the four. -/
def calculateOrderTotals (items : List OrderItem) (restaurant : Restaurant) : Totals :=
  let subtotal := items.foldl (fun sum item => sum + item.price * (item.quantity : ℚ)) 0
  let deliveryFee := jsOrQ restaurant.deliveryFee 40
  let platformFee : ℚ := (jsRound (subtotal * (0.02 : ℚ)) : ℤ)
  let taxes : ℚ := (jsRound (subtotal * (0.05 : ℚ)) : ℤ)
  ⟨subtotal, deliveryFee, platformFee, taxes, subtotal + deliveryFee + platformFee + taxes⟩

/-- Model of the point lookup `prisma.order.findUnique` on the id. -/
def findOrder (db : DB) (id : Nat) : Option Order :=
  db.orders.find? (fun o => o.id == id)

/-- Model of the point lookup `prisma.restaurant.findUnique` on the id. -/
def findRestaurant (db : DB) (id : Nat) : Option Restaurant :=
  db.restaurants.find? (fun r => r.id == id)

/-- Model of the point lookup `prisma.rider.findUnique` on the user id. -/
def findRiderByUser (db : DB) (userId : Nat) : Option Rider :=
  db.riders.find? (fun r => r.userId == userId)

/-- Model of the point lookup `prisma.address.findUnique` on the id. -/
def findAddress (db : DB) (id : Nat) : Option Address :=
  db.addresses.find? (fun a => a.id == id)

/-- A request line item as sent by the client (`items` in the create body). -/
structure RequestItem where
  menuItemId : Nat
  quantity : Nat
  notes : Option String := none
deriving DecidableEq

/-- The success payload of the mutating order routes: the new store
contents and the updated/created order row returned in the response. -/
structure OpResult where
  db : DB
  order : Order
deriving DecidableEq

/-- Model of `POST /orders` (orders.js lines 28–162): create an order.  Checks, in
source order: caller role is customer (route middleware); restaurant
exists, is active and open; address exists and belongs to the caller;
every requested menu item resolves to an available item of the target
restaurant (count equality check); totals are computed; subtotal meets the
restaurant's minimum; then the order and its initial `pending` tracking
entry are persisted.  `orderNumber` and `newOrderId` model the generated
order number and the store-assigned row id; `now` is the creation time. -/
def createOrder (db : DB) (user : User) (restaurantId addressId : Nat)
    (items : List RequestItem) (specialInstructions : Option String)
    (orderNumber : Nat) (newOrderId : Nat) (now : ℚ) : Except ErrKind OpResult :=
  if user.role ≠ .customer then .error .Forbidden
  else
    match findRestaurant db restaurantId with
    | none => .error .InvalidState
    | some restaurant =>
      if ¬ (restaurant.isActive ∧ restaurant.isOpen) then .error .InvalidState
      else
        match findAddress db addressId with
        | none => .error .InvalidState
        | some address =>
          if address.userId ≠ user.id then .error .InvalidState
          else
            let menuItemIds := items.map (·.menuItemId)
            let menuItems := db.menuItems.filter
              (fun mi => menuItemIds.contains mi.id && mi.restaurantId == restaurantId
                && mi.isAvailable)
            if menuItems.length ≠ items.length then .error .InvalidState
            else
              let orderItems := items.map (fun it =>
                { menuItemId := it.menuItemId
                  quantity := it.quantity
                  price := ((menuItems.find? (fun mi => mi.id == it.menuItemId)).map
                    (·.price)).getD 0
                  notes := it.notes })
              let t := calculateOrderTotals orderItems restaurant
              if t.subtotal < restaurant.minimumOrder then .error .InvalidState
              else
                let order : Order :=
                  { id := newOrderId
                    orderNumber := orderNumber
                    customerId := user.id
                    restaurantId := restaurantId
                    addressId := addressId
                    items := orderItems
                    subtotal := t.subtotal
                    deliveryFee := t.deliveryFee
                    platformFee := t.platformFee
                    taxes := t.taxes
                    total := t.total
                    specialInstructions := specialInstructions
                    estimatedTime := jsOrNat restaurant.deliveryTimeMax 40
                    createdAt := now }
                let db' : DB :=
                  { db with
                    orders := db.orders ++ [order]
                    tracking := db.tracking ++
                      [⟨newOrderId, .pending, "Order placed successfully", now⟩] }
                .ok ⟨db', order⟩

/-- The authorization conditional of `PATCH /orders/:id/status`
(orders.js lines 399–410): the restaurant owner of the order's restaurant
for `confirmed`/`preparing`/`ready`/`cancelled`, the caller whose user id
equals `order.riderId` for `picked_up`/`delivered`, an admin for
anything. -/
def statusAuthorized (db : DB) (user : User) (order : Order) (st : Status) : Bool :=
  if user.role == .restaurant
      && (findRestaurant db order.restaurantId).map (·.userId) == some user.id then
    [Status.confirmed, .preparing, .ready, .cancelled].contains st
  else if user.role == .rider && order.riderId == some user.id then
    [Status.picked_up, .delivered].contains st
  else
    user.role == .admin

/-- The `switch (status)` of the status-update route (orders.js lines
423–443): set the status, stamp the timestamp field named after the new
status (`pending` stamps nothing), and for `delivered` also compute
`actualTime = Math.floor(now - createdAt)` in minutes. -/
def applyStatusTimestamps (o : Order) (st : Status) (now : ℚ) : Order :=
  match st with
  | .pending => { o with status := st }
  | .confirmed => { o with status := st, confirmedAt := some now }
  | .preparing => { o with status := st, preparingAt := some now }
  | .ready => { o with status := st, readyAt := some now }
  | .picked_up => { o with status := st, pickedUpAt := some now }
  | .delivered =>
    { o with status := st, deliveredAt := some now, actualTime := some ⌊now - o.createdAt⌋ }
  | .cancelled => { o with status := st, cancelledAt := some now }

/-- Model of `PATCH /orders/:id/status` (orders.js lines 368–488): look the order
up, authorize by role and relationship, then unconditionally apply the
requested status and its timestamp — no check of the current status — and
append one tracking entry (default message `Order {status}`). -/
def updateOrderStatus (db : DB) (user : User) (id : Nat) (st : Status)
    (message : Option String) (now : ℚ) : Except ErrKind OpResult :=
  match findOrder db id with
  | none => .error .NotFound
  | some order =>
    if statusAuthorized db user order st then
      let updated := applyStatusTimestamps order st now
      let db' : DB :=
        { db with
          orders := db.orders.map (fun o => if o.id == id then updated else o)
          tracking := db.tracking ++
            [⟨id, st, jsOrStr message ("Order " ++ statusText st), now⟩] }
      .ok ⟨db', updated⟩
    else .error .Forbidden

/-- Model of `PATCH /orders/:id/cancel` (orders.js lines 491–569): customer-only
cancellation.  Checks in source order: order exists; caller is the order's
customer; status is `pending` or `confirmed`; the 5-minute window
(`timeDiff > 5 && status === 'confirmed'` rejects).  On success the status
becomes `cancelled`, `cancelledAt` and the reason are stored, and one
tracking entry is appended. -/
def cancelOrder (db : DB) (user : User) (id : Nat) (reason : Option String)
    (now : ℚ) : Except ErrKind OpResult :=
  if user.role ≠ .customer then .error .Forbidden
  else
    match findOrder db id with
    | none => .error .NotFound
    | some order =>
      if order.customerId ≠ user.id then .error .Forbidden
      else if ¬ ([Status.pending, .confirmed].contains order.status) then
        .error .InvalidState
      else if now - order.createdAt > 5 ∧ order.status = .confirmed then
        .error .InvalidState
      else
        let updated := { order with
          status := Status.cancelled
          cancelledAt := some now
          cancellationReason := reason }
        let db' : DB :=
          { db with
            orders := db.orders.map (fun o => if o.id == id then updated else o)
            tracking := db.tracking ++
              [⟨id, .cancelled,
                "Order cancelled by customer. Reason: " ++
                  jsOrStr reason "No reason provided", now⟩] }
        .ok ⟨db', updated⟩

/-- The precondition ladder of `POST /riders/accept-order/:orderId`
(riders.js lines 339–394), checked in source order: caller is a rider
(route middleware); the rider profile exists; it is available; the order
exists; its status is exactly `ready`; it has no rider yet.  Returns the
rider profile and the order read when every check passes. -/
def acceptChecks (db : DB) (user : User) (orderId : Nat) :
    Except ErrKind (Rider × Order) :=
  if user.role ≠ .rider then .error .Forbidden
  else
    match findRiderByUser db user.id with
    | none => .error .NotFound
    | some rider =>
      if ¬ rider.isAvailable then .error .InvalidState
      else
        match findOrder db orderId with
        | none => .error .NotFound
        | some order =>
          if order.status ≠ .ready then .error .InvalidState
          else if order.riderId.isSome then .error .Conflict
          else .ok (rider, order)

/-- The write phase of the accept-order route (riders.js lines 396–409):
`prisma.order.update({ where: { id: orderId }, data: { riderId } })` — an
unconditional single-row update keyed on the order id only — followed by
one tracking entry.  It stores the rider **profile** id. -/
def assignRiderWrite (db : DB) (orderId : Nat) (riderId : Nat)
    (riderName : String) (now : ℚ) : DB :=
  { db with
    orders := db.orders.map
      (fun o => if o.id == orderId then { o with riderId := some riderId } else o)
    tracking := db.tracking ++
      [⟨orderId, .ready, "Order accepted by rider " ++ riderName, now⟩] }

/-- Model of `POST /riders/accept-order/:orderId` run in isolation: the check phase
immediately followed by the write phase on the same store state. -/
def acceptOrder (db : DB) (user : User) (orderId : Nat) (now : ℚ) :
    Except ErrKind DB :=
  match acceptChecks db user orderId with
  | .error e => .error e
  | .ok (rider, _) => .ok (assignRiderWrite db orderId rider.id user.name now)

/-- Two accept-order requests interleaved so that both check phases read
the store before either write phase runs — the schedule the route admits
because its claim write is not conditioned on `riderId` still being null.
Returns each request's outcome and the final store. -/
def acceptInterleaved (db : DB) (u1 u2 : User) (orderId : Nat) (t1 t2 : ℚ) :
    Except ErrKind Unit × Except ErrKind Unit × DB :=
  match acceptChecks db u1 orderId, acceptChecks db u2 orderId with
  | .error e1, .error e2 => (.error e1, .error e2, db)
  | .error e1, .ok (r2, _) => (.error e1, .ok (), assignRiderWrite db orderId r2.id u2.name t2)
  | .ok (r1, _), .error e2 => (.ok (), .error e2, assignRiderWrite db orderId r1.id u1.name t1)
  | .ok (r1, _), .ok (r2, _) =>
    (.ok (), .ok (),
      assignRiderWrite (assignRiderWrite db orderId r1.id u1.name t1) orderId r2.id u2.name t2)

/-- Rational `≤` through the cross-multiplication characterisation
(`Rat.le_def`); used as the sort comparison so that concrete sorts reduce. -/
def qLeB (x y : ℚ) : Bool := decide (x.num * (y.den : ℤ) ≤ y.num * (x.den : ℤ))

/-- The `orderBy: { readyAt: 'asc' }` comparison of the available-orders
query, with absent timestamps ordered first. -/
def readyLeB (a b : Order) : Bool :=
  match a.readyAt, b.readyAt with
  | none, _ => true
  | some _, none => false
  | some x, some y => qLeB x y

/-- The candidate query of `GET /riders/available-orders` (riders.js lines
275–297): orders with status exactly `ready` and no rider, sorted
ascending by `readyAt`, capped at 20 rows (`take: 20`) — the cap applies
at the store, before any distance filtering. -/
def readyCandidates (db : DB) : List Order :=
  ((db.orders.filter (fun o => o.status == .ready && o.riderId == none)).insertionSort
    (fun a b => readyLeB a b = true)).take 20

/-- JS `Math.atan2` on the cases the haversine formula produces (both
arguments nonnegative). -/
noncomputable def atan2 (y x : ℝ) : ℝ :=
  if 0 < x then Real.arctan (y / x)
  else if x < 0 then
    (if 0 ≤ y then Real.arctan (y / x) + Real.pi else Real.arctan (y / x) - Real.pi)
  else if 0 < y then Real.pi / 2
  else if y < 0 then -(Real.pi / 2)
  else 0

/-- The inline haversine great-circle distance of riders.js lines 311–319,
with mean earth radius `R = 6371` km and degree inputs. -/
noncomputable def haversineKm (lat1 lng1 lat2 lng2 : ℝ) : ℝ :=
  let dLat := (lat2 - lat1) * Real.pi / 180
  let dLng := (lng2 - lng1) * Real.pi / 180
  let a := Real.sin (dLat / 2) * Real.sin (dLat / 2) +
    Real.cos (lat1 * Real.pi / 180) * Real.cos (lat2 * Real.pi / 180) *
      (Real.sin (dLng / 2) * Real.sin (dLng / 2))
  let c := 2 * atan2 (Real.sqrt a) (Real.sqrt (1 - a))
  6371 * c

/-- The body of the distance filter (riders.js lines 306–322): keep the
order when the restaurant's latitude or longitude is falsy (`null` *or*
`0`), otherwise keep it when the haversine distance is within the radius.
A dangling restaurant reference never occurs through the routes (the
store joins it by foreign key); the model keeps such an order. -/
def keepByDistance (db : DB) (riderLat riderLng radius : ℚ) (o : Order) : Prop :=
  match findRestaurant db o.restaurantId with
  | none => True
  | some rest =>
    if jsFalsyQ rest.latitude || jsFalsyQ rest.longitude then True
    else
      haversineKm (riderLat : ℝ) (riderLng : ℝ)
        ((rest.latitude.getD 0 : ℚ) : ℝ) ((rest.longitude.getD 0 : ℚ) : ℝ) ≤ (radius : ℝ)

open Classical in
/-- Model of `GET /riders/available-orders` (riders.js lines 251–336): reject a
caller without an available rider profile, query the capped `ready`
candidates, and — only when a location was supplied — apply the distance
filter in application code, after the cap.  The route's `radius` query
parameter defaults to 10. -/
noncomputable def listAvailableOrdersForRider (db : DB) (user : User)
    (loc : Option (ℚ × ℚ)) (radius : ℚ) : Except ErrKind (List Order) :=
  if user.role ≠ .rider then .error .Forbidden
  else
    match findRiderByUser db user.id with
    | none => .error .NotFound
    | some rider =>
      if ¬ rider.isAvailable then .error .InvalidState
      else
        match loc with
        | none => .ok (readyCandidates db)
        | some (la, ln) =>
          .ok ((readyCandidates db).filter
            (fun o => decide (keepByDistance db la ln radius o)))

/-- The tracking rows of one order, in store order (append order). -/
def entriesFor (db : DB) (orderId : Nat) : List TrackingEntry :=
  db.tracking.filter (fun e => e.orderId == orderId)

/-- Strict timestamp monotonicity of a tracking log. -/
def strictlyIncreasing (l : List TrackingEntry) : Prop :=
  l.Chain' (fun a b => a.timestamp < b.timestamp)

/-! ## Concrete fixtures used by counterexamples and witnesses -/

/-- A restaurant owned by user 50, with ordinary configuration. -/
def rest1 : Restaurant :=
  { id := 1, userId := 50, isActive := true, isOpen := true, deliveryFee := some 40
    minimumOrder := 100, deliveryTimeMax := some 40, latitude := none, longitude := none }

/-- The owner of `rest1`, as an authenticated restaurant caller. -/
def owner1 : User := ⟨50, "Olive", .restaurant⟩

/-- A customer caller. -/
def cust1 : User := ⟨3, "Cara", .customer⟩

/-- A delivered order of `rest1`, placed by customer 3. -/
def orderDelivered : Order :=
  { id := 1, orderNumber := 11, customerId := 3, restaurantId := 1, addressId := 1
    status := .delivered, items := [], subtotal := 250, deliveryFee := 40
    platformFee := 5, taxes := 13, total := 308, estimatedTime := 40, createdAt := 0
    confirmedAt := some 1, preparingAt := some 2, readyAt := some 3
    pickedUpAt := some 4, deliveredAt := some 5 }

/-- Store holding `orderDelivered` (for the missing-transition-guard facts). -/
def dbDelivered : DB :=
  { restaurants := [rest1], riders := [], addresses := [], menuItems := []
    orders := [orderDelivered], tracking := [] }

/-- A confirmed order of `rest1` whose `confirmedAt` is already set. -/
def orderConfirmed : Order :=
  { id := 1, orderNumber := 12, customerId := 3, restaurantId := 1, addressId := 1
    status := .confirmed, items := [], subtotal := 250, deliveryFee := 40
    platformFee := 5, taxes := 13, total := 308, estimatedTime := 40, createdAt := 0
    confirmedAt := some 100 }

/-- Store holding `orderConfirmed`. -/
def dbConfirmed : DB :=
  { restaurants := [rest1], riders := [], addresses := [], menuItems := []
    orders := [orderConfirmed], tracking := [] }

/-- A ready, unassigned order of `rest1`. -/
def orderReady : Order :=
  { id := 1, orderNumber := 13, customerId := 3, restaurantId := 1, addressId := 1
    status := .ready, items := [], subtotal := 250, deliveryFee := 40
    platformFee := 5, taxes := 13, total := 308, estimatedTime := 40, createdAt := 0
    confirmedAt := some 1, preparingAt := some 2, readyAt := some 3 }

/-- Rider profile 2 belonging to user 7 — profile id and user id differ,
as the two keys are generated independently. -/
def riderProfile2 : Rider := ⟨2, 7, "Rob", true⟩

/-- Rider profile 4 belonging to user 8. -/
def riderProfile4 : Rider := ⟨4, 8, "Ria", true⟩

/-- The rider user owning `riderProfile2`. -/
def riderUser7 : User := ⟨7, "Rob", .rider⟩

/-- The rider user owning `riderProfile4`. -/
def riderUser8 : User := ⟨8, "Ria", .rider⟩

/-- Store with a ready unassigned order and two available riders. -/
def dbReady : DB :=
  { restaurants := [rest1], riders := [riderProfile2, riderProfile4], addresses := []
    menuItems := [], orders := [orderReady], tracking := [] }

/-- A restaurant whose configured delivery fee is 0 (free delivery) — a
value the request-validation layer accepts (`deliveryFee: min(0)`). -/
def rest0 : Restaurant :=
  { id := 2, userId := 51, isActive := true, isOpen := true, deliveryFee := some 0
    minimumOrder := 0, deliveryTimeMax := some 40, latitude := none, longitude := none }

/-- Customer 3's delivery address. -/
def addr1 : Address := ⟨1, 3⟩

/-- Two available menu items of `rest1`. -/
def menu1 : MenuItem := ⟨1, 1, 100, true⟩

def menu2 : MenuItem := ⟨2, 1, 50, true⟩

/-- Store ready for a concrete order-creation run. -/
def dbMenu : DB :=
  { restaurants := [rest1], riders := [], addresses := [addr1]
    menuItems := [menu1, menu2], orders := [], tracking := [] }

/-- The result of the concrete order-creation run on `dbMenu`
(two items: 100 × 2 and 50 × 1). -/
def resMenu : OpResult :=
  (createOrder dbMenu cust1 1 1 [⟨1, 2, none⟩, ⟨2, 1, none⟩] none 77 9 0).toOption.getD
    ⟨dbMenu, orderReady⟩

/-- A restaurant whose recorded latitude is the falsy coordinate 0 and
whose longitude is 180 — antipodal to a rider at (0, 0). -/
def restZero : Restaurant :=
  { id := 3, userId := 52, isActive := true, isOpen := true, deliveryFee := some 40
    minimumOrder := 100, deliveryTimeMax := some 40
    latitude := some 0, longitude := some 180 }

/-- A ready, unassigned order of `restZero`. -/
def orderZeroCoord : Order :=
  { id := 1, orderNumber := 21, customerId := 3, restaurantId := 3, addressId := 1
    status := .ready, items := [], subtotal := 250, deliveryFee := 40
    platformFee := 5, taxes := 13, total := 308, estimatedTime := 40, createdAt := 0
    readyAt := some 3 }

/-- Store holding `orderZeroCoord` and an available rider. -/
def dbZero : DB :=
  { restaurants := [restZero], riders := [riderProfile2], addresses := []
    menuItems := [], orders := [orderZeroCoord], tracking := [] }

/-- A restaurant with nonzero recorded coordinates (180, 360), a half
great-circle away from a rider at (0, 0). -/
def restFar : Restaurant :=
  { id := 5, userId := 54, isActive := true, isOpen := true, deliveryFee := some 40
    minimumOrder := 100, deliveryTimeMax := some 40
    latitude := some 180, longitude := some 360 }

/-- A restaurant at (0, 0) — the same point as the rider of the cap
scenario, distance 0. -/
def restHome : Restaurant :=
  { id := 6, userId := 55, isActive := true, isOpen := true, deliveryFee := some 40
    minimumOrder := 100, deliveryTimeMax := some 40
    latitude := some 0, longitude := some 0 }

/-- A ready, unassigned order of `restFar` with `readyAt = i`. -/
def mkReadyOrder (i : Nat) : Order :=
  { id := i, orderNumber := i, customerId := 3, restaurantId := 5, addressId := 1
    status := .ready, items := [], subtotal := 250, deliveryFee := 40
    platformFee := 5, taxes := 13, total := 308, estimatedTime := 40, createdAt := 0
    readyAt := some (i : ℚ) }

/-- The 21st ready order: newest `readyAt`, restaurant at the rider's
own location. -/
def order21 : Order := { mkReadyOrder 21 with restaurantId := 6 }

/-- Store with 21 ready unassigned orders: the 20 oldest-ready belong to
the far restaurant, the newest (`order21`) to the one at the rider's
location. -/
def db21 : DB :=
  { restaurants := [restFar, restHome], riders := [riderProfile2], addresses := []
    menuItems := [], orders := (List.range 20).map (fun i => mkReadyOrder (i + 1)) ++ [order21]
    tracking := [] }

/-! ## General lemmas about the embedded operations -/

theorem qLeB_iff (x y : ℚ) : qLeB x y = true ↔ x ≤ y := by
  simp [qLeB, Rat.le_def]

theorem applyStatusTimestamps_status (o : Order) (st : Status) (now : ℚ) :
    (applyStatusTimestamps o st now).status = st := by
  cases st <;> rfl

/-- Inversion of a successful status update: the order was found, the
caller was authorized, and the result is the stamped order with the
store updated in place plus one appended tracking row. -/
theorem updateOrderStatus_ok_inv {db : DB} {user : User} {id : Nat} {st : Status}
    {message : Option String} {now : ℚ} {res : OpResult}
    (h : updateOrderStatus db user id st message now = .ok res) :
    ∃ order, findOrder db id = some order ∧ statusAuthorized db user order st = true
      ∧ res.order = applyStatusTimestamps order st now
      ∧ res.db = { db with
          orders := db.orders.map
            (fun o => if o.id == id then applyStatusTimestamps order st now else o)
          tracking := db.tracking ++
            [⟨id, st, jsOrStr message ("Order " ++ statusText st), now⟩] } := by
  unfold updateOrderStatus at h
  split at h
  · exact absurd h (by simp)
  · rename_i order horder
    split at h
    · rename_i hauth
      refine ⟨order, horder, hauth, ?_, ?_⟩ <;> simp_all [Except.ok.injEq]
      · exact (congrArg OpResult.order h.symm)
      · exact (congrArg OpResult.db h.symm)
    · exact absurd h (by simp)

theorem updateOrderStatus_ok_of_authorized {db : DB} {user : User} {id : Nat}
    {st : Status} (message : Option String) (now : ℚ) {order : Order}
    (horder : findOrder db id = some order)
    (hauth : statusAuthorized db user order st = true) :
    updateOrderStatus db user id st message now =
      .ok ⟨{ db with
              orders := db.orders.map
                (fun o => if o.id == id then applyStatusTimestamps order st now else o)
              tracking := db.tracking ++
                [⟨id, st, jsOrStr message ("Order " ++ statusText st), now⟩] },
            applyStatusTimestamps order st now⟩ := by
  unfold updateOrderStatus
  rw [horder]
  simp [hauth]

/-! ## C1 — status transitions under `updateOrderStatus` -/

/-- C1, counterexample: an order whose persisted status is `delivered` is
moved back to `confirmed` by its restaurant owner — the update succeeds
and the stored status changes, so the claim that such updates are
rejected with the status unchanged is false on this input. -/
theorem updateOrderStatus_delivered_moves_backward :
    (findOrder dbDelivered 1).map (·.status) = some .delivered
    ∧ (updateOrderStatus dbDelivered owner1 1 .confirmed none 500).toOption.map
        (fun r => r.order.status) = some .confirmed
    ∧ ((updateOrderStatus dbDelivered owner1 1 .confirmed none 500).toOption.map
        (fun r => (findOrder r.db 1).map (·.status))) = some (some .confirmed) := by
  decide

/-- C1, amended: `updateOrderStatus` performs no check of the order's
current status.  For every stored order and every caller that passes the
role/relationship authorization, the update succeeds and the persisted
status becomes the requested status — regardless of the current status,
so in particular on `delivered` and `cancelled` orders and for backward
moves. -/
theorem updateOrderStatus_ignores_current_status (db : DB) (user : User) (id : Nat)
    (st : Status) (message : Option String) (now : ℚ) (order : Order)
    (horder : findOrder db id = some order)
    (hauth : statusAuthorized db user order st = true) :
    (updateOrderStatus db user id st message now).toOption.map
      (fun r => r.order.status) = some st := by
  rw [updateOrderStatus_ok_of_authorized message now horder hauth]
  simp only [Except.toOption, Option.map_some]
  exact congrArg some (applyStatusTimestamps_status order st now)

/-- Witness for C1's amended theorem: the hypotheses hold at the concrete
delivered-order store, and the conclusion evaluates there. -/
theorem updateOrderStatus_ignores_current_status_witness :
    (updateOrderStatus dbDelivered owner1 1 .preparing none 500).toOption.map
      (fun r => r.order.status) = some .preparing :=
  updateOrderStatus_ignores_current_status dbDelivered owner1 1 .preparing none 500
    orderDelivered (by decide) (by decide)

/-! ## C7 — per-transition writes and timestamp overwrites -/

/-- C7, counterexample: re-issuing `confirmed` on an order whose
`confirmedAt` is already set (100) succeeds and overwrites the timestamp
with the new time (200) — so a lifecycle timestamp is not set at most
once and an already-set timestamp is overwritten. -/
theorem updateOrderStatus_overwrites_timestamp :
    (findOrder dbConfirmed 1).map (·.confirmedAt) = some (some 100)
    ∧ (updateOrderStatus dbConfirmed owner1 1 .confirmed none 200).toOption.map
        (fun r => r.order.confirmedAt) = some (some 200) := by
  decide

/-- C7, amended: a successful status update writes the status field and
exactly the timestamp field named after the new status (`pending` writes
none; `delivered` additionally writes `actualTime`), and leaves the
order's identity, items, monetary breakdown, creation time, rider, and
every *other* lifecycle timestamp unchanged.  Because no transition guard
exists, the timestamp of the requested status is overwritten even when it
was already set. -/
theorem updateOrderStatus_frame (db : DB) (user : User) (id : Nat) (st : Status)
    (message : Option String) (now : ℚ) (res : OpResult) (order : Order)
    (horder : findOrder db id = some order)
    (h : updateOrderStatus db user id st message now = .ok res) :
    res.order.status = st
    ∧ res.order.id = order.id
    ∧ res.order.customerId = order.customerId
    ∧ res.order.restaurantId = order.restaurantId
    ∧ res.order.riderId = order.riderId
    ∧ res.order.items = order.items
    ∧ res.order.subtotal = order.subtotal
    ∧ res.order.deliveryFee = order.deliveryFee
    ∧ res.order.platformFee = order.platformFee
    ∧ res.order.taxes = order.taxes
    ∧ res.order.total = order.total
    ∧ res.order.createdAt = order.createdAt
    ∧ (st = .confirmed → res.order.confirmedAt = some now)
    ∧ (st ≠ .confirmed → res.order.confirmedAt = order.confirmedAt)
    ∧ (st = .preparing → res.order.preparingAt = some now)
    ∧ (st ≠ .preparing → res.order.preparingAt = order.preparingAt)
    ∧ (st = .ready → res.order.readyAt = some now)
    ∧ (st ≠ .ready → res.order.readyAt = order.readyAt)
    ∧ (st = .picked_up → res.order.pickedUpAt = some now)
    ∧ (st ≠ .picked_up → res.order.pickedUpAt = order.pickedUpAt)
    ∧ (st = .delivered → res.order.deliveredAt = some now)
    ∧ (st ≠ .delivered →
        res.order.deliveredAt = order.deliveredAt ∧ res.order.actualTime = order.actualTime)
    ∧ (st = .cancelled → res.order.cancelledAt = some now)
    ∧ (st ≠ .cancelled → res.order.cancelledAt = order.cancelledAt) := by
  obtain ⟨order', horder', _, hord, -⟩ := updateOrderStatus_ok_inv h
  rw [horder] at horder'
  obtain rfl : order = order' := Option.some.inj horder'
  cases st <;> simp_all [applyStatusTimestamps]

/-- Witness for C7's amended theorem at the concrete confirmed-order
store, requesting `preparing`. -/
theorem updateOrderStatus_frame_witness :
    ((updateOrderStatus dbConfirmed owner1 1 .preparing none 200).toOption.getD
        ⟨dbConfirmed, orderConfirmed⟩).order.confirmedAt = orderConfirmed.confirmedAt := by
  have h :
      updateOrderStatus dbConfirmed owner1 1 .preparing none 200 =
        .ok ((updateOrderStatus dbConfirmed owner1 1 .preparing none 200).toOption.getD
          ⟨dbConfirmed, orderConfirmed⟩) := by decide
  exact ((((((((((((((updateOrderStatus_frame dbConfirmed owner1 1 .preparing none 200 _
    orderConfirmed (by decide) h).2).2).2).2).2).2).2).2).2).2).2).2).2).1 (by decide)

/-! ## C4 — who may set which status -/

/-- C4: the code slip behind the authorization claim.  `acceptOrder`
stores the rider *profile* id (2) in `order.riderId`, while the
status-update authorization compares `order.riderId` with the caller's
*user* id (7); the two keys are generated independently, so the rider
assigned to the order is rejected with `Forbidden` when trying to set
`picked_up` or `delivered`. -/
theorem assigned_rider_cannot_update_status :
    (acceptOrder dbReady riderUser7 1 10).isOk = true
    ∧ ((acceptOrder dbReady riderUser7 1 10).toOption.map
        (fun db1 => (findOrder db1 1).map (·.riderId))) = some (some (some 2))
    ∧ riderProfile2.userId = riderUser7.id
    ∧ ((acceptOrder dbReady riderUser7 1 10).toOption.map
        (fun db1 => updateOrderStatus db1 riderUser7 1 .picked_up none 20)) =
          some (.error .Forbidden)
    ∧ ((acceptOrder dbReady riderUser7 1 10).toOption.map
        (fun db1 => updateOrderStatus db1 riderUser7 1 .delivered none 20)) =
          some (.error .Forbidden) := by
  decide

/-! ## C3/C5 — the rider claim -/

/-- Inversion of a passing accept-order precondition ladder. -/
theorem acceptChecks_ok_inv {db : DB} {u : User} {oid : Nat} {r : Rider} {o : Order}
    (h : acceptChecks db u oid = .ok (r, o)) :
    u.role = .rider ∧ findRiderByUser db u.id = some r ∧ r.isAvailable = true
    ∧ findOrder db oid = some o ∧ o.status = .ready ∧ o.riderId = none := by
  unfold acceptChecks at h
  split at h
  · simp at h
  rename_i hrole
  split at h
  · simp at h
  rename_i rider hrider
  split at h
  · simp at h
  rename_i havail
  split at h
  · simp at h
  rename_i order horder
  split at h
  · simp at h
  rename_i hready
  split at h
  · simp at h
  rename_i hsome
  simp only [Except.ok.injEq, Prod.mk.injEq] at h
  obtain ⟨rfl, rfl⟩ := h
  exact ⟨by simpa using hrole, hrider, by simpa using havail, horder,
    by simpa using hready, Option.not_isSome_iff_eq_none.mp hsome⟩

/-- The claim write touches only orders and tracking. -/
theorem assignRiderWrite_riders (db : DB) (oid rid : Nat) (nm : String) (t : ℚ) :
    (assignRiderWrite db oid rid nm t).riders = db.riders := rfl

/-- Reading the claimed order back after the claim write. -/
theorem findOrder_assignRiderWrite (db : DB) (oid rid : Nat) (nm : String) (t : ℚ) :
    findOrder (assignRiderWrite db oid rid nm t) oid
      = (findOrder db oid).map (fun o => { o with riderId := some rid }) := by
  unfold findOrder assignRiderWrite
  simp only
  induction db.orders with
  | nil => rfl
  | cons x xs ih =>
    simp only [List.map_cons, List.find?_cons]
    by_cases hx : x.id == oid
    · simp [hx]
    · simp only [hx, cond_false]
      simpa [hx] using ih

/-- C3, amended: when two accept-order calls are serialized the first
claims the order and the second fails with `Conflict`; but the persisted
claim write is an unconditional update keyed on the order id alone, so
under the interleaving in which both precondition reads happen before
either write, *both* calls succeed and the later write overwrites the
rider assignment — the at-most-one-claim outcome is not enforced by the
write itself. -/
theorem acceptOrder_claim_race (db : DB) (u1 u2 : User) (oid : Nat) (t1 t2 : ℚ)
    (r1 r2 : Rider) (o : Order)
    (h1 : acceptChecks db u1 oid = .ok (r1, o))
    (h2 : acceptChecks db u2 oid = .ok (r2, o)) :
    acceptOrder db u1 oid t1 = .ok (assignRiderWrite db oid r1.id u1.name t1)
    ∧ acceptOrder (assignRiderWrite db oid r1.id u1.name t1) u2 oid t2 = .error .Conflict
    ∧ acceptInterleaved db u1 u2 oid t1 t2 =
        (.ok (), .ok (),
          assignRiderWrite (assignRiderWrite db oid r1.id u1.name t1) oid r2.id u2.name t2)
    ∧ (findOrder (acceptInterleaved db u1 u2 oid t1 t2).2.2 oid).map (·.riderId)
        = some (some r2.id) := by
  obtain ⟨hrole2, hrider2, havail2, horder2, hready2, -⟩ := acceptChecks_ok_inv h2
  have hchecks1 : acceptOrder db u1 oid t1 = .ok (assignRiderWrite db oid r1.id u1.name t1) := by
    unfold acceptOrder
    rw [h1]
  have hnext : acceptChecks (assignRiderWrite db oid r1.id u1.name t1) u2 oid
      = .error .Conflict := by
    unfold acceptChecks
    rw [show findRiderByUser (assignRiderWrite db oid r1.id u1.name t1) u2.id
        = findRiderByUser db u2.id from rfl]
    rw [hrider2, findOrder_assignRiderWrite, horder2]
    simp [hrole2, havail2, hready2]
  refine ⟨hchecks1, ?_, ?_, ?_⟩
  · unfold acceptOrder
    rw [hnext]
  · unfold acceptInterleaved
    rw [h1, h2]
  · unfold acceptInterleaved
    rw [h1, h2]
    simp only
    rw [findOrder_assignRiderWrite, findOrder_assignRiderWrite, horder2]
    rfl

/-- Witness for C3's amended theorem at the concrete two-rider store. -/
theorem acceptOrder_claim_race_witness :
    (findOrder (acceptInterleaved dbReady riderUser7 riderUser8 1 5 6).2.2 1).map (·.riderId)
      = some (some riderProfile4.id) :=
  (acceptOrder_claim_race dbReady riderUser7 riderUser8 1 5 6 riderProfile2 riderProfile4
    orderReady (by decide) (by decide)).2.2.2

/-- C3, counterexample: with both riders' precondition reads happening
before either write — the schedule the unconditional write admits — both
accept calls report success and the order ends assigned to the second
rider, refuting "exactly one call succeeds and the other fails with
`Conflict`". -/
theorem accept_race_both_succeed :
    (acceptInterleaved dbReady riderUser7 riderUser8 1 5 6).1 = .ok ()
    ∧ (acceptInterleaved dbReady riderUser7 riderUser8 1 5 6).2.1 = .ok ()
    ∧ (findOrder (acceptInterleaved dbReady riderUser7 riderUser8 1 5 6).2.2 1).map
        (·.riderId) = some (some 4) := by
  decide

/-- C5: the accept-order preconditions are checked in source order — rider
profile exists (`NotFound`), rider available (`InvalidState`), order
exists (`NotFound`), status exactly `ready` (`InvalidState`), order
unassigned (`Conflict`) — each first violated one deciding the error; and
the claim write plus tracking append happen only when every check passes,
so a failing call performs no write. -/
theorem acceptOrder_preconditions (db : DB) (u : User) (oid : Nat) (now : ℚ)
    (hrole : u.role = .rider) :
    (findRiderByUser db u.id = none → acceptOrder db u oid now = .error .NotFound)
    ∧ (∀ r, findRiderByUser db u.id = some r → r.isAvailable = false →
        acceptOrder db u oid now = .error .InvalidState)
    ∧ (∀ r, findRiderByUser db u.id = some r → r.isAvailable = true →
        findOrder db oid = none → acceptOrder db u oid now = .error .NotFound)
    ∧ (∀ r o, findRiderByUser db u.id = some r → r.isAvailable = true →
        findOrder db oid = some o → o.status ≠ .ready →
        acceptOrder db u oid now = .error .InvalidState)
    ∧ (∀ r o, findRiderByUser db u.id = some r → r.isAvailable = true →
        findOrder db oid = some o → o.status = .ready → o.riderId.isSome →
        acceptOrder db u oid now = .error .Conflict)
    ∧ (∀ r o, findRiderByUser db u.id = some r → r.isAvailable = true →
        findOrder db oid = some o → o.status = .ready → o.riderId = none →
        acceptOrder db u oid now = .ok (assignRiderWrite db oid r.id u.name now)) := by
  unfold acceptOrder acceptChecks
  refine ⟨?_, ?_, ?_, ?_, ?_, ?_⟩
  · intro hnone
    rw [hnone]
    simp [hrole]
  · intro r hr hun
    rw [hr]
    simp [hrole, hun]
  · intro r hr hav hnone
    rw [hr, hnone]
    simp [hrole, hav]
  · intro r o hr hav ho hst
    rw [hr, ho]
    simp [hrole, hav, hst]
  · intro r o hr hav ho hst hsome
    rw [hr, ho]
    simp [hrole, hav, hst, hsome]
  · intro r o hr hav ho hst hnone
    rw [hr, ho]
    simp [hrole, hav, hst, hnone]

/-- Witness for C5 at a store with no rider profile for the caller. -/
theorem acceptOrder_preconditions_witness :
    acceptOrder dbConfirmed riderUser7 1 0 = .error .NotFound :=
  (acceptOrder_preconditions dbConfirmed riderUser7 1 0 (by decide)).1 (by decide)

/-! ## C6 — customer cancellation window -/

/-- C6: for the order's own customer, cancellation of a `pending` order
succeeds at any elapsed time; of a `confirmed` order succeeds when the
elapsed time since creation is at most 5 minutes and fails with
`InvalidState` beyond 5 minutes; and fails with `InvalidState` in every
other status.  On success the status becomes `cancelled` and the
cancellation timestamp is set to the cancellation time. -/
theorem cancelOrder_window (db : DB) (u : User) (id : Nat) (reason : Option String)
    (now : ℚ) (o : Order)
    (hrole : u.role = .customer) (ho : findOrder db id = some o)
    (hcust : o.customerId = u.id) :
    (o.status = .pending →
      (cancelOrder db u id reason now).toOption.map
        (fun r => (r.order.status, r.order.cancelledAt)) = some (.cancelled, some now))
    ∧ (o.status = .confirmed → now - o.createdAt ≤ 5 →
      (cancelOrder db u id reason now).toOption.map
        (fun r => (r.order.status, r.order.cancelledAt)) = some (.cancelled, some now))
    ∧ (o.status = .confirmed → now - o.createdAt > 5 →
      cancelOrder db u id reason now = .error .InvalidState)
    ∧ (o.status ≠ .pending → o.status ≠ .confirmed →
      cancelOrder db u id reason now = .error .InvalidState) := by
  refine ⟨?_, ?_, ?_, ?_⟩
  · intro hp
    simp only [cancelOrder, ho, hrole, hcust, hp]
    simp
    exact ⟨_, rfl, rfl, rfl⟩
  · intro hc hle
    simp only [cancelOrder, ho, hrole, hcust, hc]
    simp [not_lt.mpr hle]
    exact ⟨_, rfl, rfl, rfl⟩
  · intro hc hgt
    simp [cancelOrder, ho, hrole, hcust, hc, hgt]
  · intro hp hc
    cases hst : o.status
    case pending => exact absurd hst hp
    case confirmed => exact absurd hst hc
    all_goals simp [cancelOrder, ho, hrole, hcust, hst]

/-- Witness for C6: the confirmed order cancelled by its customer at
4 minutes elapsed succeeds. -/
theorem cancelOrder_window_witness :
    (cancelOrder dbConfirmed cust1 1 none 4).toOption.map
      (fun r => (r.order.status, r.order.cancelledAt)) = some (.cancelled, some 4) :=
  (cancelOrder_window dbConfirmed cust1 1 none 4 orderConfirmed (by decide) (by decide)
    (by decide)).2.1 (by decide) (by norm_num [orderConfirmed])

/-! ## C2 — the monetary computation at creation -/

theorem foldl_price_sum (l : List OrderItem) (init : ℚ) :
    l.foldl (fun s it => s + it.price * (it.quantity : ℚ)) init
      = init + (l.map (fun it => it.price * (it.quantity : ℚ))).sum := by
  induction l generalizing init with
  | nil => simp
  | cons x xs ih => simp [ih, add_assoc]

theorem jsRound_nonneg {q : ℚ} (hq : 0 ≤ q) : 0 ≤ jsRound q := by
  unfold jsRound
  rw [round_eq]
  exact Int.le_floor.mpr (by push_cast; linarith)

/-- Inversion of a successful order creation: the restaurant resolved and
the result row carries the totals computed from its own priced items,
with the store extended by the order and a single `pending` tracking
entry. -/
theorem createOrder_ok_inv {db : DB} {u : User} {rid aid : Nat}
    {items : List RequestItem} {instr : Option String} {onum oid : Nat} {now : ℚ}
    {res : OpResult}
    (h : createOrder db u rid aid items instr onum oid now = .ok res) :
    ∃ rest, findRestaurant db rid = some rest
      ∧ res.order.id = oid
      ∧ res.order.createdAt = now
      ∧ res.order.subtotal = (calculateOrderTotals res.order.items rest).subtotal
      ∧ res.order.deliveryFee = (calculateOrderTotals res.order.items rest).deliveryFee
      ∧ res.order.platformFee = (calculateOrderTotals res.order.items rest).platformFee
      ∧ res.order.taxes = (calculateOrderTotals res.order.items rest).taxes
      ∧ res.order.total = (calculateOrderTotals res.order.items rest).total
      ∧ ((∀ mi ∈ db.menuItems, 0 ≤ mi.price) → ∀ it ∈ res.order.items, 0 ≤ it.price)
      ∧ res.db = { db with
          orders := db.orders ++ [res.order]
          tracking := db.tracking ++ [⟨oid, .pending, "Order placed successfully", now⟩] } := by
  simp only [createOrder] at h
  split at h
  · simp at h
  split at h
  · simp at h
  rename_i rest hrest
  split at h
  · simp at h
  split at h
  · simp at h
  rename_i addr haddr
  split at h
  · simp at h
  split at h
  · simp at h
  split at h
  · simp at h
  rename_i hmin
  simp only [Except.ok.injEq] at h
  subst h
  refine ⟨rest, hrest, rfl, rfl, rfl, rfl, rfl, rfl, rfl, ?_, rfl⟩
  intro hpos it hit
  simp only [List.mem_map] at hit
  obtain ⟨req, -, rfl⟩ := hit
  simp only
  cases hfind : (db.menuItems.filter fun mi =>
      (items.map (·.menuItemId)).contains mi.id && mi.restaurantId == rid
        && mi.isAvailable).find? (fun mi => mi.id == req.menuItemId) with
  | none => simp [hfind]
  | some mi =>
    have hmem : mi ∈ db.menuItems :=
      List.mem_of_mem_filter (List.mem_of_find?_eq_some hfind)
    simp [hfind]
    exact hpos mi hmem

/-- C2, counterexample: the restaurant's configured delivery fee is 0 —
a set value — yet `calculateOrderTotals` charges the default 40, because
the source computes `restaurant.deliveryFee || 40` and `0` is falsy; the
claimed breakdown (fee 0, total 107) differs from the computed one
(fee 40, total 147). -/
theorem calculateOrderTotals_zero_fee :
    rest0.deliveryFee = some 0
    ∧ (calculateOrderTotals [⟨1, 1, 100, none⟩] rest0).deliveryFee = 40
    ∧ (calculateOrderTotals [⟨1, 1, 100, none⟩] rest0).total = 147 := by
  refine ⟨rfl, ?_, ?_⟩ <;>
    norm_num [calculateOrderTotals, jsOrQ, jsRound, round_eq, rest0]

/-- C2, amended: for every successful creation, the persisted order
carries `subtotal = Σ(unit price × quantity)` over its own frozen items,
`deliveryFee` equal to the restaurant's configured fee when that fee is
set *and nonzero* and 40 otherwise (`|| 40` treats a configured 0 as
unset), `platformFee = round(0.02·subtotal)` and `taxes =
round(0.05·subtotal)` — both non-negative integers (under catalog prices
being non-negative) — and `total` equal to the sum of the four. -/
theorem createOrder_money (db : DB) (u : User) (rid aid : Nat)
    (items : List RequestItem) (instr : Option String) (onum oid : Nat) (now : ℚ)
    (res : OpResult) (rest : Restaurant)
    (h : createOrder db u rid aid items instr onum oid now = .ok res)
    (hrest : findRestaurant db rid = some rest)
    (hpos : ∀ mi ∈ db.menuItems, 0 ≤ mi.price) :
    res.order.subtotal = (res.order.items.map (fun it => it.price * (it.quantity : ℚ))).sum
    ∧ res.order.deliveryFee = jsOrQ rest.deliveryFee 40
    ∧ res.order.platformFee = ((jsRound (res.order.subtotal * (0.02 : ℚ)) : ℤ) : ℚ)
    ∧ res.order.taxes = ((jsRound (res.order.subtotal * (0.05 : ℚ)) : ℤ) : ℚ)
    ∧ res.order.total = res.order.subtotal + res.order.deliveryFee + res.order.platformFee
        + res.order.taxes
    ∧ (∃ m : ℕ, res.order.platformFee = (m : ℚ))
    ∧ (∃ n : ℕ, res.order.taxes = (n : ℚ)) := by
  obtain ⟨rest', hrest', -, -, hsub, hfee, hpf, htax, htot, hitems, -⟩ := createOrder_ok_inv h
  rw [hrest] at hrest'
  obtain rfl : rest = rest' := Option.some.inj hrest'
  have hsub' : res.order.subtotal
      = (res.order.items.map (fun it => it.price * (it.quantity : ℚ))).sum := by
    rw [hsub]
    show (res.order.items.foldl (fun s it => s + it.price * (it.quantity : ℚ)) 0) = _
    rw [foldl_price_sum]
    ring
  have hsubnn : 0 ≤ res.order.subtotal := by
    rw [hsub']
    apply List.sum_nonneg
    intro x hx
    simp only [List.mem_map] at hx
    obtain ⟨it, hit, rfl⟩ := hx
    exact mul_nonneg (hitems hpos it hit) (by positivity)
  have hpf' : res.order.platformFee = ((jsRound (res.order.subtotal * (0.02 : ℚ)) : ℤ) : ℚ) := by
    rw [hpf, hsub]
    rfl
  have htax' : res.order.taxes = ((jsRound (res.order.subtotal * (0.05 : ℚ)) : ℤ) : ℚ) := by
    rw [htax, hsub]
    rfl
  refine ⟨hsub', by rw [hfee]; rfl, hpf', htax', by rw [htot, hsub, hfee, hpf, htax]; rfl,
    ?_, ?_⟩
  · have hz : 0 ≤ jsRound (res.order.subtotal * (0.02 : ℚ)) :=
      jsRound_nonneg (by positivity)
    exact ⟨(jsRound (res.order.subtotal * (0.02 : ℚ))).toNat,
      by rw [hpf']; exact_mod_cast (Int.toNat_of_nonneg hz).symm⟩
  · have hz : 0 ≤ jsRound (res.order.subtotal * (0.05 : ℚ)) :=
      jsRound_nonneg (by positivity)
    exact ⟨(jsRound (res.order.subtotal * (0.05 : ℚ))).toNat,
      by rw [htax']; exact_mod_cast (Int.toNat_of_nonneg hz).symm⟩

/-- An `Except` value known to be `ok` equals `ok` of its extracted payload. -/
theorem except_eq_ok_getD {α : Type} {e : Except ErrKind α} (d : α)
    (h : e.isOk = true) : e = .ok (e.toOption.getD d) := by
  cases e
  · simp [Except.isOk, Except.toBool] at h
  · rfl

/-- Witness for C2's amended theorem: the concrete creation run on
`dbMenu` (items 100 × 2 and 50 × 1, fee 40, minimum 100) satisfies the
hypotheses, and its delivery fee follows `jsOrQ`. -/
theorem createOrder_money_witness :
    resMenu.order.deliveryFee = jsOrQ rest1.deliveryFee 40
    ∧ (∃ m : ℕ, resMenu.order.platformFee = (m : ℚ)) :=
  have hok : (createOrder dbMenu cust1 1 1 [⟨1, 2, none⟩, ⟨2, 1, none⟩] none 77 9 0).isOk
      = true := by
    norm_num [createOrder, findRestaurant, findAddress, dbMenu, rest1, addr1, menu1, menu2,
      cust1, calculateOrderTotals, jsOrQ, jsOrNat, jsRound, round_eq, Except.isOk,
      Except.toBool]
  have h : createOrder dbMenu cust1 1 1 [⟨1, 2, none⟩, ⟨2, 1, none⟩] none 77 9 0
      = .ok resMenu := by
    unfold resMenu
    exact except_eq_ok_getD ⟨dbMenu, orderReady⟩ hok
  have hmain := createOrder_money dbMenu cust1 1 1 [⟨1, 2, none⟩, ⟨2, 1, none⟩] none 77 9 0
    resMenu rest1 h (by decide) (by decide)
  ⟨hmain.2.1, hmain.2.2.2.2.2.1⟩

/-! ## C9 — the tracking log -/

/-- C9: each of the four lifecycle operations appends, on success, exactly
one tracking entry — carrying the acted-on order's id and the operation
time — to the end of the log (entries are never updated or deleted: the
previous log is a prefix of the new one); and appending an entry whose
timestamp exceeds every existing timestamp of that order preserves strict
timestamp monotonicity of the order's log. -/
theorem lifecycle_tracking_append :
    (∀ db u rid aid items instr onum oid now res,
      createOrder db u rid aid items instr onum oid now = .ok res →
      res.db.tracking = db.tracking ++ [⟨oid, .pending, "Order placed successfully", now⟩])
    ∧ (∀ db u id st msg now res,
      updateOrderStatus db u id st msg now = .ok res →
      res.db.tracking = db.tracking ++
        [⟨id, st, jsOrStr msg ("Order " ++ statusText st), now⟩])
    ∧ (∀ db u id reason now res,
      cancelOrder db u id reason now = .ok res →
      res.db.tracking = db.tracking ++
        [⟨id, .cancelled,
          "Order cancelled by customer. Reason: " ++ jsOrStr reason "No reason provided",
          now⟩])
    ∧ (∀ db u oid now db_acc, acceptOrder db u oid now = .ok db_acc →
      db_acc.tracking = db.tracking ++
        [⟨oid, .ready, "Order accepted by rider " ++ u.name, now⟩])
    ∧ (∀ (db db2 : DB) (e : TrackingEntry) (oid : Nat),
      db2.tracking = db.tracking ++ [e] →
      strictlyIncreasing (entriesFor db oid) →
      (∀ x ∈ entriesFor db oid, x.timestamp < e.timestamp) →
      strictlyIncreasing (entriesFor db2 oid)) := by
  refine ⟨?_, ?_, ?_, ?_, ?_⟩
  · intro db u rid aid items instr onum oid now res h
    obtain ⟨rest, -, -, -, -, -, -, -, -, -, hdb⟩ := createOrder_ok_inv h
    rw [hdb]
  · intro db u id st msg now res h
    obtain ⟨o, -, -, -, hdb⟩ := updateOrderStatus_ok_inv h
    rw [hdb]
  · intro db u id reason now res h
    simp only [cancelOrder] at h
    split at h
    · simp at h
    split at h
    · simp at h
    split at h
    · simp at h
    split at h
    · simp at h
    split at h
    · simp at h
    simp only [Except.ok.injEq] at h
    subst h
    rfl
  · intro db u oid now db_acc h
    unfold acceptOrder at h
    cases hc : acceptChecks db u oid with
    | error e => rw [hc] at h; simp at h
    | ok p =>
      rw [hc] at h
      simp only [Except.ok.injEq] at h
      subst h
      rfl
  · intro db db2 e oid happ hmono hlt
    unfold strictlyIncreasing entriesFor at *
    rw [happ, List.filter_append]
    by_cases he : e.orderId == oid
    · have hfe : List.filter (fun t => t.orderId == oid) [e] = [e] := by simp [he]
      rw [hfe]
      refine List.Chain'.append hmono (List.chain'_singleton e) ?_
      intro x hx y hy
      simp only [List.head?_cons, Option.mem_def, Option.some.injEq] at hy
      subst hy
      exact hlt x (List.mem_of_mem_getLast? hx)
    · have hfe : List.filter (fun t => t.orderId == oid) [e] = [] := by simp [he]
      rw [hfe, List.append_nil]
      exact hmono

/-- Witness for C9: the concrete rider claim on `dbReady` appends exactly
its one tracking entry. -/
theorem lifecycle_tracking_append_witness :
    ((acceptOrder dbReady riderUser7 1 10).toOption.getD dbReady).tracking
      = dbReady.tracking ++ [⟨1, .ready, "Order accepted by rider " ++ riderUser7.name, 10⟩] :=
  lifecycle_tracking_append.2.2.2.1 dbReady riderUser7 1 10
    ((acceptOrder dbReady riderUser7 1 10).toOption.getD dbReady) (by decide)

/-! ## C8/C10 — the rider matching query -/

theorem atan2_one_zero : atan2 1 0 = Real.pi / 2 := by
  unfold atan2
  norm_num

theorem atan2_zero_one : atan2 0 1 = 0 := by
  unfold atan2
  norm_num [Real.arctan_zero]

/-- The haversine distance from a point to itself is 0. -/
theorem haversineKm_same (lat lng : ℝ) : haversineKm lat lng lat lng = 0 := by
  simp only [haversineKm]
  rw [show (lat - lat) * Real.pi / 180 / 2 = 0 by ring,
    show (lng - lng) * Real.pi / 180 / 2 = 0 by ring]
  rw [Real.sin_zero]
  norm_num [Real.sqrt_one, atan2_zero_one]

/-- The haversine distance between (0, 0) and (0, 180) in degrees is half
the earth's great circle: `6371 * π` km. -/
theorem haversineKm_antipodal : haversineKm 0 0 0 180 = 6371 * Real.pi := by
  simp only [haversineKm]
  rw [show ((0:ℝ) - 0) * Real.pi / 180 / 2 = 0 by ring,
    show ((180:ℝ) - 0) * Real.pi / 180 / 2 = Real.pi / 2 by ring,
    show (0:ℝ) * Real.pi / 180 = 0 by ring]
  rw [Real.sin_zero, Real.cos_zero, Real.sin_pi_div_two]
  norm_num [Real.sqrt_one, Real.sqrt_zero, atan2_one_zero]
  ring

/-- Membership in the capped candidate query implies the row filters. -/
theorem mem_readyCandidates {db : DB} {o : Order} (h : o ∈ readyCandidates db) :
    o.status = .ready ∧ o.riderId = none ∧ o ∈ db.orders := by
  unfold readyCandidates at h
  have h2 := List.take_subset 20 _ h
  have h3 := (List.perm_insertionSort (fun a b => readyLeB a b = true) _).subset h2
  obtain ⟨hmem, hprop⟩ := List.mem_filter.mp h3
  simp only [Bool.and_eq_true, beq_iff_eq] at hprop
  exact ⟨hprop.1, hprop.2, hmem⟩

open Classical in
/-- C8, amended, both directions.  Exclusion: an order appears in
`listAvailableOrdersForRider` only if its status is `ready` and it has no
rider, and — when a location is supplied — an order whose restaurant has
recorded *nonzero* coordinates appears only if the haversine distance is
within the radius.  Retention: every capped candidate whose restaurant is
missing, has no recorded latitude or longitude, or has a recorded
latitude or longitude equal to 0 (`!coordinate` is truthy for 0) is in
the result regardless of any distance — the distance filter never drops
it, with or without a supplied location. -/
theorem listAvailable_filter_sound (db : DB) (u : User) (loc : Option (ℚ × ℚ))
    (radius : ℚ) (l : List Order)
    (h : listAvailableOrdersForRider db u loc radius = .ok l) :
    (∀ o ∈ l, o.status = .ready ∧ o.riderId = none ∧ o ∈ db.orders
      ∧ (∀ rla rln rest la ln, loc = some (rla, rln) →
          findRestaurant db o.restaurantId = some rest →
          rest.latitude = some la → rest.longitude = some ln → ¬ la = 0 → ¬ ln = 0 →
          haversineKm (rla : ℝ) (rln : ℝ) (la : ℝ) (ln : ℝ) ≤ (radius : ℝ)))
    ∧ (∀ o ∈ readyCandidates db,
        (∀ rest, findRestaurant db o.restaurantId = some rest →
          jsFalsyQ rest.latitude = true ∨ jsFalsyQ rest.longitude = true) →
        o ∈ l) := by
  unfold listAvailableOrdersForRider at h
  split at h
  · simp at h
  split at h
  · simp at h
  split at h
  · simp at h
  split at h
  · -- no location: the raw candidates are returned
    simp only [Except.ok.injEq] at h
    subst h
    constructor
    · intro o hol
      obtain ⟨h1, h2, h3⟩ := mem_readyCandidates hol
      exact ⟨h1, h2, h3, fun rla rln rest la ln hl => by simp at hl⟩
    · intro o ho _
      exact ho
  · -- location given: the distance filter ran after the cap
    simp only [Except.ok.injEq] at h
    subst h
    constructor
    · intro o hol
      obtain ⟨hcand, hkeep⟩ := List.mem_filter.mp hol
      obtain ⟨h1, h2, h3⟩ := mem_readyCandidates hcand
      refine ⟨h1, h2, h3, ?_⟩
      intro rla rln rest la ln hl hrest hla hln hla0 hln0
      cases hl
      have hk := of_decide_eq_true hkeep
      unfold keepByDistance at hk
      rw [hrest] at hk
      simp only [hla, hln] at hk
      rw [if_neg (by simp [jsFalsyQ, hla0, hln0])] at hk
      simpa using hk
    · intro o ho hfalsy
      refine List.mem_filter.mpr ⟨ho, ?_⟩
      refine decide_eq_true ?_
      unfold keepByDistance
      cases hrest2 : findRestaurant db o.restaurantId with
      | none => simp [hrest2]
      | some rest =>
        simp only [hrest2]
        rcases hfalsy rest hrest2 with hf | hf <;> simp [hf]

/-- Witness for C8's amended theorem, exercising both directions with a
supplied location: the ready order of `dbReady` — whose restaurant has no
recorded coordinates — is retained by the distance filter at rider
location (0, 0), and the produced row passes the row filters. -/
theorem listAvailable_filter_sound_witness :
    orderReady ∈
        (listAvailableOrdersForRider dbReady riderUser7 (some (0, 0)) 10).toOption.getD []
      ∧ orderReady.status = .ready ∧ orderReady.riderId = none := by
  have hok : (listAvailableOrdersForRider dbReady riderUser7 (some (0, 0)) 10).isOk
      = true := by
    unfold listAvailableOrdersForRider
    rw [show findRiderByUser dbReady riderUser7.id = some riderProfile2 from by decide]
    simp [riderUser7, riderProfile2, Except.isOk, Except.toBool]
  have h := except_eq_ok_getD [] hok
  have hmain := listAvailable_filter_sound dbReady riderUser7 (some (0, 0)) 10
    ((listAvailableOrdersForRider dbReady riderUser7 (some (0, 0)) 10).toOption.getD []) h
  have hfalsy : ∀ rest, findRestaurant dbReady orderReady.restaurantId = some rest →
      jsFalsyQ rest.latitude = true ∨ jsFalsyQ rest.longitude = true := by
    intro rest hrest
    rw [show findRestaurant dbReady orderReady.restaurantId = some rest1 from by decide]
      at hrest
    obtain rfl := Option.some.inj hrest
    exact Or.inl (by decide)
  have hmem := hmain.2 orderReady (by decide) hfalsy
  exact ⟨hmem, (hmain.1 orderReady hmem).1, (hmain.1 orderReady hmem).2.1⟩

open Classical in
/-- C8, counterexample: the restaurant's coordinates are recorded
(latitude 0, longitude 180), the haversine distance to the rider at
(0, 0) is `6371 π > 10` km — far outside the radius 10 — yet the order is
returned, because the source treats the recorded latitude 0 as missing. -/
theorem available_orders_keeps_far_zero_latitude :
    restZero.latitude = some 0 ∧ restZero.longitude = some 180
    ∧ orderZeroCoord.restaurantId = restZero.id
    ∧ haversineKm 0 0 0 180 > 10
    ∧ (listAvailableOrdersForRider dbZero riderUser7 (some (0, 0)) 10).toOption.getD []
        = [orderZeroCoord] := by
  refine ⟨rfl, rfl, rfl, ?_, ?_⟩
  · rw [haversineKm_antipodal]
    linarith [Real.pi_gt_three]
  · have hcand : readyCandidates dbZero = [orderZeroCoord] := by decide
    have hk : keepByDistance dbZero 0 0 10 orderZeroCoord := by
      simp only [keepByDistance]
      rw [show findRestaurant dbZero orderZeroCoord.restaurantId = some restZero from by decide]
      simp [restZero, jsFalsyQ]
    have hstep : listAvailableOrdersForRider dbZero riderUser7 (some (0, 0)) 10
        = .ok ([orderZeroCoord].filter
            (fun o => decide (keepByDistance dbZero 0 0 10 o))) := by
      unfold listAvailableOrdersForRider
      rw [show findRiderByUser dbZero riderUser7.id = some riderProfile2 from by decide]
      rw [hcand]
      simp [riderUser7, riderProfile2]
    rw [hstep]
    simp only [Except.toOption, Option.getD_some]
    rw [List.filter_cons, if_pos (by exact decide_eq_true hk)]
    rfl

/-- The haversine distance between (0, 0) and (180, 360) in degrees is
half the earth's great circle: `6371 * π` km. -/
theorem haversineKm_far : haversineKm 0 0 180 360 = 6371 * Real.pi := by
  simp only [haversineKm]
  rw [show ((180:ℝ) - 0) * Real.pi / 180 / 2 = Real.pi / 2 by ring,
    show ((360:ℝ) - 0) * Real.pi / 180 / 2 = Real.pi by ring,
    show (0:ℝ) * Real.pi / 180 = 0 by ring,
    show (180:ℝ) * Real.pi / 180 = Real.pi by ring]
  rw [Real.sin_pi_div_two, Real.sin_pi, Real.cos_zero, Real.cos_pi]
  norm_num [Real.sqrt_one, Real.sqrt_zero, atan2_one_zero]
  ring

/-- C10: the 20-row cap is applied by the candidate query, before the
distance filter, so no result exceeds 20 orders; and in the concrete
store `db21` — 21 ready unassigned orders whose 20 oldest-ready rows all
belong to a restaurant provably out of radius (distance `6371 π > 10`
from the rider at (0, 0)) — the in-radius order `order21` (its
restaurant sits at the rider's own location, distance 0 ≤ 10) is capped
away and omitted from the result. -/
theorem listAvailable_cap :
    (∀ db u loc radius l,
      listAvailableOrdersForRider db u loc radius = .ok l → l.length ≤ 20)
    ∧ ((readyCandidates db21).length = 20
      ∧ (∀ o ∈ readyCandidates db21, o.restaurantId = restFar.id)
      ∧ restFar.latitude = some 180 ∧ restFar.longitude = some 360
      ∧ haversineKm 0 0 180 360 > 10
      ∧ order21 ∈ db21.orders ∧ order21.status = .ready ∧ order21.riderId = none
      ∧ haversineKm 0 0 0 0 ≤ 10
      ∧ ∀ l, listAvailableOrdersForRider db21 riderUser7 (some (0, 0)) 10 = .ok l →
          order21 ∉ l) := by
  constructor
  · intro db u loc radius l h
    unfold listAvailableOrdersForRider at h
    split at h
    · simp at h
    split at h
    · simp at h
    split at h
    · simp at h
    split at h
    · simp only [Except.ok.injEq] at h
      subst h
      unfold readyCandidates
      simp
    · simp only [Except.ok.injEq] at h
      subst h
      refine le_trans (List.length_filter_le _ _) ?_
      unfold readyCandidates
      simp
  · refine ⟨by decide, by decide, rfl, rfl, ?_, by decide, by decide, by decide, ?_, ?_⟩
    · rw [haversineKm_far]
      linarith [Real.pi_gt_three]
    · rw [haversineKm_same]
      norm_num
    · intro l h hmem
      unfold listAvailableOrdersForRider at h
      rw [show findRiderByUser db21 riderUser7.id = some riderProfile2 from by decide] at h
      simp [riderUser7, riderProfile2] at h
      subst h
      have hnot : order21 ∉ readyCandidates db21 := by decide
      exact hnot (List.mem_of_mem_filter hmem)

/-- Witness for C10: a concrete location-free query, capped. -/
theorem listAvailable_cap_witness :
    ((listAvailableOrdersForRider dbReady riderUser7 none 10).toOption.getD []).length ≤ 20 :=
  listAvailable_cap.1 dbReady riderUser7 none 10
    ((listAvailableOrdersForRider dbReady riderUser7 none 10).toOption.getD [])
    (except_eq_ok_getD [] (by decide))

end FoodDelivery
